import Mathlib

/-!
Verification of the query/DDL construction and execution layer of the
dataBassWork repository (file `database.py`).

The Python source is shallowly embedded as executable Lean definitions:

* pure string manipulation (`str.upper`, `str.strip`, `str.join`,
  f-string concatenation) becomes pure functions on `String`
  (restricted to the ASCII behaviour, which is all the embedded SQL
  fragments use);
* the psycopg2 helpers `sql.Identifier` / `sql.SQL` become functions
  that either render the quoted text or fail (Python raises `TypeError`
  when they are given `None`);
* the database backend is an oracle `exec : String → Option String`
  mapping an executed statement to `none` (success) or `some msg`
  (the raised low-level error message); transactional state is made
  explicit by returning both the list of statements sent to the server
  and the list of statements whose effects persist after
  commit/rollback;
* Python's per-process string hash (used for default CHECK-constraint
  names) is a parameter `pyHash : Option String → Int`: two different
  processes correspond to two different values of this parameter.
-/

/-! ### ASCII models of Python string primitives -/

/-- Python `str.upper` on one character, restricted to ASCII letters
(all operator and function-name strings handled by the source are
ASCII): codepoints 97-122 are shifted down by 32. -/
def pyToUpper (c : Char) : Char :=
  if 97 ≤ c.toNat ∧ c.toNat ≤ 122 then Char.ofNat (c.toNat - 32) else c

/-- Python `str.lower` on one character, restricted to ASCII letters
(the keys of the error-translation table are ASCII): codepoints 65-90
are shifted up by 32. -/
def pyToLower (c : Char) : Char :=
  if 65 ≤ c.toNat ∧ c.toNat ≤ 90 then Char.ofNat (c.toNat + 32) else c

/-- `s.upper()` as a map over the characters. -/
def pyUpper (s : String) : String := ⟨s.data.map pyToUpper⟩

/-- `s.lower()` as a map over the characters. -/
def pyLower (s : String) : String := ⟨s.data.map pyToLower⟩

/-- ASCII whitespace as stripped by Python `str.strip()`. -/
def isPySpace (c : Char) : Bool :=
  c = ' ' || c = '\t' || c = '\n' || c = '\r'

/-- Python `str.strip()`: drop whitespace from both ends. -/
def pyStrip (s : String) : String :=
  ⟨((s.data.dropWhile isPySpace).reverse.dropWhile isPySpace).reverse⟩

/-- Python `sep.join(parts)`. -/
def pyJoin (sep : String) : List String → String
  | [] => ""
  | [x] => x
  | x :: xs => x ++ sep ++ pyJoin sep xs

/-- Number of `%s` placeholder occurrences in a character list: the
number of positions holding `'%'` immediately followed by `'s'`
(occurrences of this two-character needle can never overlap, so this is
exactly the number of psycopg2 positional placeholders in SQL text that
does not use the `%%` escape — none of the embedded builders emit it). -/
def countPH : List Char → Nat
  | [] => 0
  | c :: rest => (if c = '%' ∧ rest.head? = some 's' then 1 else 0) + countPH rest

/-- Number of `%s` placeholders in a string. -/
def countPHs (s : String) : Nat := countPH s.data

/-- Does `hay` start with `needle`? -/
def startsWithCh : List Char → List Char → Bool
  | [], _ => true
  | _ :: _, [] => false
  | a :: as, b :: bs => a = b && startsWithCh as bs

/-- Does `needle` occur as a contiguous substring of `hay`? -/
def containsSubCh (needle : List Char) : List Char → Bool
  | [] => needle.isEmpty
  | c :: rest => startsWithCh needle (c :: rest) || containsSubCh needle rest

/-- Python's `needle in hay` substring test. -/
def containsSub (hay needle : String) : Bool := containsSubCh needle.data hay.data

/-- Double every double-quote character (the body of psycopg2's
identifier escaping). -/
def escQuotes : List Char → List Char
  | [] => []
  | c :: rest => if c = '"' then '"' :: '"' :: escQuotes rest else c :: escQuotes rest

/-- `psycopg2.sql.Identifier(s).as_string(conn)`: the name wrapped in
double quotes with inner double quotes doubled. -/
def quoteIdent (s : String) : String := "\"" ++ (⟨escQuotes s.data⟩ : String) ++ "\""

/-- Rendering of an `Optional[str]` inside a Python f-string:
`None` prints as the text `None`. -/
def fstrOpt : Option String → String
  | none => "None"
  | some s => s

/-- Python's `a or b` for an `Optional[str]` left operand: `None` and
the empty string are falsy. -/
def pyOrStr (a : Option String) (b : String) : String :=
  match a with
  | none => b
  | some s => if s = "" then b else s

/-! ### Error translator (`_humanize_pg_error`, database.py lines 42-58) -/

/-- The substring → human-readable-category table of
`_humanize_pg_error`, in Python dict insertion order (the source
iterates the dict and returns on the first key contained in the
lowercased message). -/
def pgErrorMapping : List (String × String) :=
  [("unique", "Нарушено ограничение UNIQUE."),
   ("not-null", "Нарушено ограничение NOT NULL."),
   ("foreign key", "Нарушено ограничение внешнего ключа (FOREIGN KEY)."),
   ("check constraint", "Нарушено ограничение CHECK."),
   ("syntax", "Синтаксическая ошибка SQL."),
   ("does not exist", "Объект не найден (таблица/столбец/ограничение)."),
   ("duplicate object", "Объект уже существует."),
   ("invalid input syntax", "Неверный формат данных для указанного типа."),
   ("cannot drop column", "Нельзя удалить столбец: существуют зависимости или ограничения.")]

/-- The first table entry whose key occurs in the lowercased message. -/
def pgFindCategory (msg : String) : Option (String × String) :=
  pgErrorMapping.find? (fun kv => containsSub (pyLower msg) kv.1)

/-- `_humanize_pg_error`: if some key of the table occurs in the
lowercased raw message, return the category text followed by the raw
message; otherwise return the raw message unchanged. -/
def humanizePgError (msg : String) : String :=
  match pgFindCategory msg with
  | some kv => kv.2 ++ " Детали: " ++ msg
  | none => msg

/-! ### ALTER TABLE transactional API (database.py lines 132-219) -/

/-- The closed set of `AlterAction.kind` tags (the `Literal[...]` type
in the source; the defensive `else: raise DBError(...)` branch of
`alter_table` is unreachable for values of this closed type). -/
inductive AlterKind where
  | add_column | drop_column | rename_column | rename_table
  | alter_type | set_not_null | drop_not_null
  | add_unique | drop_constraint | add_check
  | add_foreign_key
deriving DecidableEq, Repr

/-- The `AlterAction` dataclass.  Optional fields model the
`Optional[str] = None` defaults; the unused catch-all `extra` dict is
omitted (no code reads it). -/
structure AlterAction where
  kind : AlterKind
  table : String
  column : Option String
  new_name : Option String
  data_type : Option String
  check_expr : Option String
  ref_table : Option String
  ref_column : Option String
  constraint_name : Option String
  cascade : Bool
deriving DecidableEq, Repr

/-- `psycopg2.sql.Identifier` applied to an optional field: rendering a
present name succeeds, `sql.Identifier(None)` raises `TypeError`. -/
def sqlIdent : Option String → Except String String
  | some s => .ok (quoteIdent s)
  | none => .error "TypeError: SQL identifiers must be strings"

/-- `psycopg2.sql.SQL` applied to an optional field: a present raw SQL
fragment is inserted verbatim, `sql.SQL(None)` raises `TypeError`. -/
def sqlRaw : Option String → Except String String
  | some s => .ok s
  | none => .error "TypeError: SQL values must be strings"

/-- One loop iteration of `alter_table` (database.py lines 158-205):
render the single `ALTER TABLE` statement for an action, or fail the
way the source fails (a `TypeError` from `sql.Identifier(None)` /
`sql.SQL(None)`), in the source's left-to-right format-argument order.
`pyHash` is Python's per-process `hash` on the `check_expr` field. -/
def buildAlterCommand (pyHash : Option String → Int) (a : AlterAction) :
    Except String String :=
  match a.kind with
  | .add_column =>
    match sqlIdent a.column with
    | .error e => .error e
    | .ok c =>
      match sqlRaw a.data_type with
      | .error e => .error e
      | .ok d => .ok ("ALTER TABLE " ++ quoteIdent a.table ++ " ADD COLUMN " ++ c ++ " " ++ d)
  | .drop_column =>
    match sqlIdent a.column with
    | .error e => .error e
    | .ok c =>
      .ok ("ALTER TABLE " ++ quoteIdent a.table ++ " DROP COLUMN " ++ c ++ " "
            ++ (if a.cascade then "CASCADE" else ""))
  | .rename_column =>
    match sqlIdent a.column with
    | .error e => .error e
    | .ok c =>
      match sqlIdent a.new_name with
      | .error e => .error e
      | .ok n => .ok ("ALTER TABLE " ++ quoteIdent a.table ++ " RENAME COLUMN " ++ c ++ " TO " ++ n)
  | .rename_table =>
    match sqlIdent a.new_name with
    | .error e => .error e
    | .ok n => .ok ("ALTER TABLE " ++ quoteIdent a.table ++ " RENAME TO " ++ n)
  | .alter_type =>
    match sqlIdent a.column with
    | .error e => .error e
    | .ok c =>
      match sqlRaw a.data_type with
      | .error e => .error e
      | .ok d => .ok ("ALTER TABLE " ++ quoteIdent a.table ++ " ALTER COLUMN " ++ c ++ " TYPE " ++ d)
  | .set_not_null =>
    match sqlIdent a.column with
    | .error e => .error e
    | .ok c => .ok ("ALTER TABLE " ++ quoteIdent a.table ++ " ALTER COLUMN " ++ c ++ " SET NOT NULL")
  | .drop_not_null =>
    match sqlIdent a.column with
    | .error e => .error e
    | .ok c => .ok ("ALTER TABLE " ++ quoteIdent a.table ++ " ALTER COLUMN " ++ c ++ " DROP NOT NULL")
  | .add_unique =>
    let cname := pyOrStr a.constraint_name (a.table ++ "_" ++ fstrOpt a.column ++ "_uniq")
    match sqlIdent a.column with
    | .error e => .error e
    | .ok c =>
      .ok ("ALTER TABLE " ++ quoteIdent a.table ++ " ADD CONSTRAINT " ++ quoteIdent cname
            ++ " UNIQUE (" ++ c ++ ")")
  | .add_check =>
    let cname := pyOrStr a.constraint_name
        (a.table ++ "_check_" ++ toString ((pyHash a.check_expr).natAbs % 9999))
    match sqlRaw a.check_expr with
    | .error e => .error e
    | .ok x =>
      .ok ("ALTER TABLE " ++ quoteIdent a.table ++ " ADD CONSTRAINT " ++ quoteIdent cname
            ++ " CHECK (" ++ x ++ ")")
  | .add_foreign_key =>
    let cname := pyOrStr a.constraint_name (a.table ++ "_" ++ fstrOpt a.column ++ "_fk")
    match sqlIdent a.column with
    | .error e => .error e
    | .ok c =>
      match sqlIdent a.ref_table with
      | .error e => .error e
      | .ok rt =>
        match sqlIdent a.ref_column with
        | .error e => .error e
        | .ok rc =>
          .ok ("ALTER TABLE " ++ quoteIdent a.table ++ " ADD CONSTRAINT " ++ quoteIdent cname
                ++ " FOREIGN KEY (" ++ c ++ ") REFERENCES " ++ rt ++ "(" ++ rc ++ ")")
  | .drop_constraint =>
    match sqlIdent a.constraint_name with
    | .error e => .error e
    | .ok n => .ok ("ALTER TABLE " ++ quoteIdent a.table ++ " DROP CONSTRAINT " ++ n)

/-- The statement-building loop of `alter_table` (lines 157-205): all
commands are rendered before the cursor is even created, and the first
build failure aborts the whole call. -/
def buildAlterBatch (pyHash : Option String → Int) :
    List AlterAction → Except String (List String)
  | [] => .ok []
  | a :: rest =>
    match buildAlterCommand pyHash a with
    | .error e => .error e
    | .ok c =>
      match buildAlterBatch pyHash rest with
      | .error e => .error e
      | .ok cs => .ok (c :: cs)

/-- Execute statements in order against the backend oracle, stopping at
the first failure.  Returns the statements actually sent to the server
(including a failing one — psycopg2 raises after the statement reached
the backend) and the error of the first failing statement, if any. -/
def execUntilErr (exec : String → Option String) : List String → List String × Option String
  | [] => ([], none)
  | c :: cs =>
    match exec c with
    | some e => ([c], some e)
    | none =>
      let r := execUntilErr exec cs
      (c :: r.1, r.2)

/-- Observable result of one `alter_table` call:
`buildError` — an exception escaped during statement building, before
the cursor was created (the `try` block only wraps execution);
`ok` — every statement succeeded and `conn.commit()` ran, carrying the
returned summary string;
`dbError` — some execution failed, `conn.rollback()` ran and a
`DBError` with the carried message was raised. -/
inductive AlterOutcome where
  | buildError : String → AlterOutcome
  | ok : String → AlterOutcome
  | dbError : String → AlterOutcome
deriving DecidableEq, Repr

/-- `alter_table(conn, actions)` (database.py lines 152-219) against
the backend oracle `exec`.  Result: the outcome, the list of statements
sent to the server, and the list of statements whose effects persist
after the call (all of them after `commit`, none after `rollback`). -/
def alterTable (pyHash : Option String → Int) (exec : String → Option String)
    (actions : List AlterAction) : AlterOutcome × List String × List String :=
  match buildAlterBatch pyHash actions with
  | .error e => (.buildError e, [], [])
  | .ok cmds =>
    let r := execUntilErr exec cmds
    match r.2 with
    | none =>
      (.ok ("Успешно выполнено " ++ toString cmds.length ++ " изменений."), r.1, r.1)
    | some e => (.dbError (humanizePgError e), r.1, [])

/-- Which optional fields each `kind` needs: exactly the fields whose
absence makes the corresponding branch of the source builder raise a
`TypeError` (through `sql.Identifier(None)` or `sql.SQL(None)`). -/
def missingRequired (a : AlterAction) : Bool :=
  match a.kind with
  | .add_column => a.column.isNone || a.data_type.isNone
  | .drop_column => a.column.isNone
  | .rename_column => a.column.isNone || a.new_name.isNone
  | .rename_table => a.new_name.isNone
  | .alter_type => a.column.isNone || a.data_type.isNone
  | .set_not_null => a.column.isNone
  | .drop_not_null => a.column.isNone
  | .add_unique => a.column.isNone
  | .add_check => a.check_expr.isNone
  | .add_foreign_key => a.column.isNone || a.ref_table.isNone || a.ref_column.isNone
  | .drop_constraint => a.constraint_name.isNone

/-! ### SELECT query builder (`SelectParams`, `build_select_sql`, database.py lines 222-293) -/

/-- One `where` condition dict `\x7b'col','op','val'\x7d`.  The source reads
`cond.get("op","=")` — a missing operator key defaults to `=` — so the
operator is optional; `col` and `val` are read with mandatory
indexing/`get`. -/
structure WhereCond (α : Type) where
  col : String
  op : Option String
  val : α
deriving DecidableEq, Repr

/-- One `having` condition dict.  Unlike WHERE, the source indexes
`cond['op']` directly (mandatory) and applies no normalisation. -/
structure HavingCond (α : Type) where
  col : String
  op : String
  val : α
deriving DecidableEq, Repr

/-- One join dict `\x7b'type','table','on'\x7d`; the source reads
`j.get("type","INNER")`, so the type key is optional. -/
structure JoinSpec where
  jtype : Option String
  table : String
  onExpr : String
deriving DecidableEq, Repr

/-- The `SelectParams` dataclass.  The Python field `where` is spelled
`whereConds` (`where` is a Lean keyword); values (`val` entries, limit,
offset) have the abstract type `α`, mirroring Python's `Any`. -/
structure SelectParams (α : Type) where
  tables : List String
  columns : List String
  joins : List JoinSpec
  whereConds : List (WhereCond α)
  group_by : List String
  having : List (HavingCond α)
  order_by : List (String × String)
  limit : Option α
  offset : Option α
deriving DecidableEq, Repr

/-- The pattern-operator list the source's WHERE loop tests membership
in (database.py line 260).  Note that in the source both branches of
that test emit the identical text. -/
def patternMatchOps : List String :=
  ["LIKE", "ILIKE", "~", "~*", "!~", "!~*"]

/-- One WHERE condition rendered into the statement text
(database.py lines 257-264): `op = cond.get("op","=").strip().upper()`,
then — the membership test notwithstanding, since its branches are
identical — `f"\x7bcond['col']\x7d \x7bop\x7d %s"`. -/
def whereItem {α : Type} (c : WhereCond α) : String :=
  let op := pyUpper (pyStrip (c.op.getD "="))
  if patternMatchOps.contains op then c.col ++ " " ++ op ++ " %s"
  else c.col ++ " " ++ op ++ " %s"

/-- One HAVING condition rendered into the statement text
(database.py line 275): `f"\x7bcond['col']\x7d \x7bcond['op']\x7d %s"`. -/
def havingItem {α : Type} (c : HavingCond α) : String :=
  c.col ++ " " ++ c.op ++ " %s"

/-- The WHERE clause part list: empty when the `where` list is empty,
otherwise the single `"WHERE ..."` entry appended to `parts`. -/
def buildWhereParts {α : Type} (p : SelectParams α) : List String :=
  if p.whereConds.isEmpty then []
  else ["WHERE " ++ pyJoin " AND " (p.whereConds.map whereItem)]

/-- The full `parts` list of `build_select_sql` in source order:
SELECT, column list (or `*`), FROM, JOINs, WHERE, GROUP BY, HAVING,
ORDER BY, LIMIT, OFFSET. -/
def buildSelectParts {α : Type} (p : SelectParams α) : List String :=
  ["SELECT",
   if p.columns.isEmpty then "*" else pyJoin ", " p.columns,
   "FROM " ++ pyJoin ", " p.tables]
  ++ p.joins.map (fun j => pyUpper (j.jtype.getD "INNER") ++ " JOIN " ++ j.table ++ " ON " ++ j.onExpr)
  ++ buildWhereParts p
  ++ (if p.group_by.isEmpty then [] else ["GROUP BY " ++ pyJoin ", " p.group_by])
  ++ (if p.having.isEmpty then [] else ["HAVING " ++ pyJoin " AND " (p.having.map havingItem)])
  ++ (if p.order_by.isEmpty then []
      else ["ORDER BY " ++ pyJoin ", " (p.order_by.map (fun cd => cd.1 ++ " " ++ cd.2))])
  ++ (match p.limit with | some _ => ["LIMIT %s"] | none => [])
  ++ (match p.offset with | some _ => ["OFFSET %s"] | none => [])

/-- The argument list of `build_select_sql` in source append order:
WHERE values, then HAVING values, then limit, then offset. -/
def buildSelectArgs {α : Type} (p : SelectParams α) : List α :=
  p.whereConds.map WhereCond.val
  ++ p.having.map HavingCond.val
  ++ (match p.limit with | some v => [v] | none => [])
  ++ (match p.offset with | some v => [v] | none => [])

/-- `build_select_sql(p)` (database.py lines 235-293): the
space-joined statement text together with the ordered argument list. -/
def build_select_sql {α : Type} (p : SelectParams α) : String × List α :=
  (pyJoin " " (buildSelectParts p), buildSelectArgs p)

/-- Replace every literal value in a `SelectParams` through `f`,
leaving all identifiers, operators and expressions untouched. -/
def SelectParams.mapVals {α β : Type} (f : α → β) (p : SelectParams α) : SelectParams β :=
  ⟨p.tables, p.columns, p.joins,
   p.whereConds.map (fun c => ⟨c.col, c.op, f c.val⟩),
   p.group_by,
   p.having.map (fun c => ⟨c.col, c.op, f c.val⟩),
   p.order_by,
   p.limit.map f, p.offset.map f⟩

/-! ### String-function helper (`apply_string_func`, database.py lines 308-349) -/

/-- The `VALID_STRING_FUNCS` lookup combined with the
`expr_template.format(col=...)` substitution: for a known function
name, the SQL expression with the quoted column substituted for the
`col` slot; `none` models `func not in VALID_STRING_FUNCS`. -/
def stringFuncExpr (colQ : String) : String → Option String
  | "UPPER" => some ("UPPER(" ++ colQ ++ ")")
  | "LOWER" => some ("LOWER(" ++ colQ ++ ")")
  | "TRIM" => some ("TRIM(" ++ colQ ++ ")")
  | "SUBSTRING" => some ("SUBSTRING(" ++ colQ ++ " FROM %s FOR %s)")
  | "LPAD" => some ("LPAD(" ++ colQ ++ ", %s, %s)")
  | "RPAD" => some ("RPAD(" ++ colQ ++ ", %s, %s)")
  | "CONCAT" => some ("CONCAT(" ++ colQ ++ ", %s)")
  | _ => none

/-- `cursor.execute(q, args)` as psycopg2 performs it: the client
library first interpolates the arguments into the placeholders locally
(`mogrify`); if the argument count does not match the placeholder
count this raises locally and nothing is sent to the server; otherwise
the statement goes to the backend oracle.  Returns the statements that
reached the server and the raised error, if any. -/
def cursorExecute (exec : String → Option String) (q : String) (args : List String) :
    List String × Option String :=
  if countPHs q ≠ args.length then ([], some "IndexError: tuple index out of range")
  else
    match exec q with
    | some e => ([q], some e)
    | none => ([q], none)

/-- `apply_string_func(conn, table, column, func, *extra_args)`
(database.py lines 319-349): normalise the function name
(`func.upper().strip()`), reject unknown names with a `DBError`, build
the SELECT text with quoted identifiers, then execute it with the
extra arguments; execution errors are wrapped through
`_humanize_pg_error` into a `DBError`.  Returns the Python-level
result (`.ok` = rows returned, `.error` = raised `DBError` message)
and the statements that reached the server. -/
def applyStringFunc (exec : String → Option String)
    (table column func : String) (extraArgs : List String) :
    Except String Unit × List String :=
  let f := pyStrip (pyUpper func)
  match stringFuncExpr (quoteIdent column) f with
  | none => (.error ("Неизвестная строковая функция: " ++ f), [])
  | some expr =>
    let q := "SELECT " ++ quoteIdent column ++ ", " ++ (expr ++ " AS transformed")
              ++ " FROM " ++ quoteIdent table
    let r := cursorExecute exec q extraArgs
    match r.2 with
    | some e => (.error (humanizePgError e), r.1)
    | none => (.ok (), r.1)


/-! ### Definitions stated from the specification, for comparison -/

/-- The specification's enumerated WHERE-operator set (spec section
4.1), stated in the spec's words so the source behaviour can be
compared against it: `=`,`<>`,`<`,`>`,`<=`,`>=`,`LIKE`,`ILIKE` and the
pattern-match variants. -/
def specOperatorSet : List String :=
  ["=", "<>", "<", ">", "<=", ">=", "LIKE", "ILIKE", "~", "~*", "!~", "!~*"]

/-- Marker characters for the four clause keywords: `W` occurs in
`WHERE`, `V` in `HAVING`, `G` in `GROUP BY`, `D` in `ORDER BY`, and
none of the four occurs in any text the SELECT builder emits on its
own (`SELECT`, `*`, `FROM`, `JOIN`, `ON`, commas, spaces, `LIMIT %s`,
`OFFSET %s`). -/
def clauseMarkChars : List Char := ['W', 'V', 'G', 'D']

/-- A caller-supplied fragment that cannot contribute one of the four
clause keywords to the statement text: it avoids all four marker
characters (ordinary lower-case identifiers and expressions such as
`t`, `col1`, `u.id = t.id` all qualify). -/
abbrev clauseMarkFree (s : String) : Prop := ∀ c ∈ clauseMarkChars, c ∉ s.data

/-! ### Helper lemmas about the string primitives -/

theorem countPH_cons (c : Char) (t : List Char) :
    countPH (c :: t) = (if c = '%' ∧ t.head? = some 's' then 1 else 0) + countPH t := rfl

theorem countPH_append_headNeS (x y : List Char) (h : y.head? ≠ some 's') :
    countPH (x ++ y) = countPH x + countPH y := by
  induction x with
  | nil => simp [countPH]
  | cons c x' ih =>
    cases x' with
    | nil =>
      cases y with
      | nil => simp [countPH]
      | cons d y' =>
        have hd : d ≠ 's' := by simpa using h
        simp [countPH, hd]
    | cons e x'' =>
      rw [List.cons_append, countPH_cons, ih, countPH_cons c (e :: x'')]
      have h1 : ((e :: x'') ++ y).head? = some e := rfl
      have h2 : (e :: x'').head? = some e := rfl
      rw [h1, h2]
      omega

theorem countPH_append_noPercent (x y : List Char) (h : '%' ∉ x) :
    countPH (x ++ y) = countPH y := by
  induction x with
  | nil => simp
  | cons c x' ih =>
    have hc : c ≠ '%' := fun e => h (e ▸ List.mem_cons_self c x')
    have hx : '%' ∉ x' := fun m => h (List.mem_cons_of_mem c m)
    rw [List.cons_append, countPH_cons, if_neg (fun hand => hc hand.1), ih hx]
    omega

theorem countPH_eq_zero_of_noS (x : List Char) (h : 's' ∉ x) : countPH x = 0 := by
  induction x with
  | nil => rfl
  | cons c x' ih =>
    have hx : 's' ∉ x' := fun m => h (List.mem_cons_of_mem c m)
    have hcond : x'.head? ≠ some 's' := by
      cases x' with
      | nil => simp
      | cons d x'' =>
        have hd : d ≠ 's' := by
          intro e
          subst e
          exact hx (List.mem_cons_self _ _)
        simpa using hd
    rw [countPH_cons, if_neg (fun hand => hcond hand.2), ih hx]

theorem countPHs_append_headNeS (x y : String) (h : y.data.head? ≠ some 's') :
    countPHs (x ++ y) = countPHs x + countPHs y := by
  simp only [countPHs, String.data_append]
  exact countPH_append_headNeS x.data y.data h

theorem countPHs_append_noPercent (x y : String) (h : '%' ∉ x.data) :
    countPHs (x ++ y) = countPHs y := by
  simp only [countPHs, String.data_append]
  exact countPH_append_noPercent x.data y.data h

theorem countPHs_eq_zero_of_noS (x : String) (h : 's' ∉ x.data) : countPHs x = 0 :=
  countPH_eq_zero_of_noS x.data h

theorem data_head?_append (s t : String) (c : Char) (h : s.data.head? = some c) :
    (s ++ t).data.head? = some c := by
  rw [String.data_append]
  cases hs : s.data with
  | nil => rw [hs] at h; simp at h
  | cons d rest => rw [hs] at h; simpa using h

theorem pyToUpper_ne_s (c : Char) : pyToUpper c ≠ 's' := by
  intro h
  unfold pyToUpper at h
  split at h
  · rename_i hc
    obtain ⟨h1, h2⟩ := hc
    generalize hm : c.toNat = n at h h1 h2
    interval_cases n <;> exact absurd h (by decide)
  · rename_i hc
    subst h
    exact hc (by decide)

theorem noS_pyUpper (s : String) : 's' ∉ (pyUpper s).data := by
  simp only [pyUpper]
  intro h
  rcases List.mem_map.mp h with ⟨c, _, hc⟩
  exact pyToUpper_ne_s c hc

theorem startsWithCh_refl (l : List Char) : startsWithCh l l = true := by
  induction l with
  | nil => rfl
  | cons c rest ih => simp [startsWithCh, ih]

theorem containsSubCh_append_self (n x : List Char) :
    containsSubCh n (x ++ n) = true := by
  induction x with
  | nil =>
    cases n with
    | nil => rfl
    | cons c rest => simp [containsSubCh, startsWithCh_refl]
  | cons c x' ih => simp [containsSubCh, ih]

theorem containsSub_append_self (x n : String) : containsSub (x ++ n) n = true := by
  simp only [containsSub, String.data_append]
  exact containsSubCh_append_self n.data x.data

theorem containsSub_self (n : String) : containsSub n n = true := by
  simpa using containsSub_append_self "" n

theorem startsWithCh_false_of_missing (c : Char) :
    ∀ n h : List Char, c ∈ n → c ∉ h → startsWithCh n h = false := by
  intro n
  induction n with
  | nil => intro h hc hh; cases hc
  | cons a as ih =>
    intro h hc hh
    cases h with
    | nil => rfl
    | cons b bs =>
      by_cases hab : a = b
      · rcases List.mem_cons.mp hc with hca | hmem
        · exact absurd (by rw [hca, hab]; exact List.mem_cons_self b bs) hh
        · have hbs : c ∉ bs := fun m => hh (List.mem_cons_of_mem b m)
          simp [startsWithCh, hab, ih bs hmem hbs]
      · simp [startsWithCh, hab]

theorem containsSubCh_false_of_missing (c : Char) (n : List Char) (hc : c ∈ n) :
    ∀ h : List Char, c ∉ h → containsSubCh n h = false := by
  intro h
  induction h with
  | nil =>
    intro _
    cases n with
    | nil => cases hc
    | cons a as => rfl
  | cons b bs ih =>
    intro hh
    have hb : c ∉ bs := fun m => hh (List.mem_cons_of_mem b m)
    simp [containsSubCh, startsWithCh_false_of_missing c n (b :: bs) hc hh, ih hb]

theorem containsSub_false_of_missing (hay needle : String) (c : Char)
    (hc : c ∈ needle.data) (hh : c ∉ hay.data) : containsSub hay needle = false :=
  containsSubCh_false_of_missing c needle.data hc hay.data hh

theorem mem_pyJoin (sep : String) (parts : List String) (c : Char)
    (hs : c ∉ sep.data) (hp : ∀ s ∈ parts, c ∉ s.data) :
    c ∉ (pyJoin sep parts).data := by
  induction parts with
  | nil => simp [pyJoin]
  | cons x xs ih =>
    cases xs with
    | nil => exact hp x (List.mem_cons_self x [])
    | cons y ys =>
      have hx : c ∉ x.data := hp x (List.mem_cons_self x (y :: ys))
      have hrest : ∀ s ∈ y :: ys, c ∉ s.data := fun s m => hp s (List.mem_cons_of_mem x m)
      simp only [pyJoin, String.data_append, List.mem_append]
      push_neg
      exact ⟨⟨hx, hs⟩, ih hrest⟩

theorem not_mem_strAppend {c : Char} {a b : String}
    (ha : c ∉ a.data) (hb : c ∉ b.data) : c ∉ (a ++ b).data := by
  intro m
  rw [String.data_append] at m
  rcases List.mem_append.mp m with m | m
  · exact ha m
  · exact hb m

/-! ### Helper lemmas about the ALTER TABLE embedding -/

theorem buildAlterBatch_ok_length (pyHash : Option String → Int) :
    ∀ (l : List AlterAction) (cs : List String),
      buildAlterBatch pyHash l = .ok cs → cs.length = l.length := by
  intro l
  induction l with
  | nil =>
    intro cs h
    simp only [buildAlterBatch] at h
    injection h with h
    rw [← h]
    rfl
  | cons a rest ih =>
    intro cs h
    simp only [buildAlterBatch] at h
    cases hc : buildAlterCommand pyHash a with
    | error e => rw [hc] at h; exact Except.noConfusion h
    | ok c =>
      rw [hc] at h
      cases hb : buildAlterBatch pyHash rest with
      | error e => rw [hb] at h; exact Except.noConfusion h
      | ok cs' =>
        rw [hb] at h
        injection h with h2
        rw [← h2]
        simp [ih cs' hb]

theorem execUntilErr_none_fst (exec : String → Option String) :
    ∀ l : List String, (execUntilErr exec l).2 = none → (execUntilErr exec l).1 = l := by
  intro l
  induction l with
  | nil => intro _; rfl
  | cons c cs ih =>
    intro h
    simp only [execUntilErr] at h ⊢
    cases he : exec c with
    | some e =>
      rw [he] at h
      have h2 : some e = none := h
      exact Option.noConfusion h2
    | none =>
      rw [he] at h
      have h' : (execUntilErr exec cs).2 = none := h
      show c :: (execUntilErr exec cs).1 = c :: cs
      rw [ih h']

theorem buildAlterCommand_missing (pyHash : Option String → Int) (a : AlterAction)
    (h : missingRequired a = true) : ∃ e, buildAlterCommand pyHash a = .error e := by
  obtain ⟨k, tb, col, nn, dt, ce, rt, rc, cn, ca⟩ := a
  cases k
  all_goals
    simp only [missingRequired, Bool.or_eq_true, Option.isNone_iff_eq_none] at h
  case add_column =>
    rcases h with h | h
    · subst h; exact ⟨_, rfl⟩
    · subst h; cases col <;> exact ⟨_, rfl⟩
  case drop_column => subst h; exact ⟨_, rfl⟩
  case rename_column =>
    rcases h with h | h
    · subst h; exact ⟨_, rfl⟩
    · subst h; cases col <;> exact ⟨_, rfl⟩
  case rename_table => subst h; exact ⟨_, rfl⟩
  case alter_type =>
    rcases h with h | h
    · subst h; exact ⟨_, rfl⟩
    · subst h; cases col <;> exact ⟨_, rfl⟩
  case set_not_null => subst h; exact ⟨_, rfl⟩
  case drop_not_null => subst h; exact ⟨_, rfl⟩
  case add_unique => subst h; exact ⟨_, rfl⟩
  case add_check => subst h; exact ⟨_, rfl⟩
  case add_foreign_key =>
    rcases h with (h | h) | h
    · subst h; exact ⟨_, rfl⟩
    · subst h; cases col <;> exact ⟨_, rfl⟩
    · subst h; cases col <;> cases rt <;> exact ⟨_, rfl⟩
  case drop_constraint => subst h; exact ⟨_, rfl⟩

theorem buildAlterBatch_error_of_mem (pyHash : Option String → Int) :
    ∀ (l : List AlterAction) (a : AlterAction), a ∈ l →
      (∃ e, buildAlterCommand pyHash a = .error e) →
      ∃ e, buildAlterBatch pyHash l = .error e := by
  intro l
  induction l with
  | nil => intro a ha _; cases ha
  | cons b rest ih =>
    intro a ha he
    rcases List.mem_cons.mp ha with rfl | hmem
    · obtain ⟨e, hce⟩ := he
      exact ⟨e, by simp [buildAlterBatch, hce]⟩
    · cases hcb : buildAlterCommand pyHash b with
      | error e => exact ⟨e, by simp [buildAlterBatch, hcb]⟩
      | ok c =>
        obtain ⟨e', hb⟩ := ih a hmem he
        exact ⟨e', by simp [buildAlterBatch, hcb, hb]⟩

/-! ### Helper lemmas about the SELECT builder -/

theorem isEmptyMap {α β : Type} (f : α → β) (l : List α) :
    (l.map f).isEmpty = l.isEmpty := by
  cases l <;> rfl

theorem map_whereItem_mapVals {α β : Type} (f : α → β) (w : List (WhereCond α)) :
    (w.map (fun c => (⟨c.col, c.op, f c.val⟩ : WhereCond β))).map whereItem
      = w.map whereItem := by
  induction w with
  | nil => rfl
  | cons a l ih =>
    simp only [List.map_cons, ih]
    rfl

theorem map_havingItem_mapVals {α β : Type} (f : α → β) (l : List (HavingCond α)) :
    (l.map (fun c => (⟨c.col, c.op, f c.val⟩ : HavingCond β))).map havingItem
      = l.map havingItem := by
  induction l with
  | nil => rfl
  | cons a l ih =>
    simp only [List.map_cons, ih]
    rfl

theorem buildSelectParts_mapVals {α β : Type} (f : α → β) (p : SelectParams α) :
    buildSelectParts (SelectParams.mapVals f p) = buildSelectParts p := by
  obtain ⟨t, c, j, w, g, hv, o, li, of⟩ := p
  simp only [buildSelectParts, buildWhereParts, SelectParams.mapVals,
    map_whereItem_mapVals, map_havingItem_mapVals, isEmptyMap]
  cases li <;> cases of <;> rfl

theorem countPHs_whereItem {α : Type} (c : WhereCond α) (h : countPHs c.col = 0) :
    countPHs (whereItem c) = 1 := by
  unfold whereItem
  rw [ite_self]
  simp only [String.append_assoc]
  have hh1 : (" " ++ (pyUpper (pyStrip (c.op.getD "=")) ++ " %s")).data.head? ≠ some 's' := by
    rw [data_head?_append " " _ ' ' rfl]
    decide
  rw [countPHs_append_headNeS _ _ hh1, h,
    countPHs_append_noPercent " " _ (by decide),
    countPHs_append_headNeS _ " %s" (by decide),
    countPHs_eq_zero_of_noS _ (noS_pyUpper _)]
  decide

theorem countPHs_joinAND {α : Type} (conds : List (WhereCond α))
    (h : ∀ c ∈ conds, countPHs c.col = 0) :
    countPHs (pyJoin " AND " (conds.map whereItem)) = conds.length := by
  induction conds with
  | nil => rfl
  | cons c rest ih =>
    have hc : countPHs c.col = 0 := h c (List.mem_cons_self c rest)
    have hrest : ∀ x ∈ rest, countPHs x.col = 0 := fun x m => h x (List.mem_cons_of_mem c m)
    cases rest with
    | nil =>
      show countPHs (whereItem c) = 1
      exact countPHs_whereItem c hc
    | cons d rest' =>
      show countPHs (whereItem c ++ " AND "
          ++ pyJoin " AND " (whereItem d :: rest'.map whereItem)) = _
      rw [String.append_assoc]
      have hh : (" AND " ++ pyJoin " AND " (whereItem d :: rest'.map whereItem)).data.head?
          ≠ some 's' := by
        rw [data_head?_append " AND " _ ' ' rfl]
        decide
      rw [countPHs_append_headNeS _ _ hh, countPHs_whereItem c hc,
        countPHs_append_noPercent " AND " _ (by decide)]
      have := ih hrest
      simp only [List.map_cons] at this
      rw [this]
      simp [List.length_cons]
      omega

theorem chr_not_mem_selectText {α : Type} (p : SelectParams α) (c : Char)
    (hw : p.whereConds = []) (hh : p.having = []) (hg : p.group_by = []) (ho : p.order_by = [])
    (hsep : c ∉ " ".data) (hS : c ∉ "SELECT".data) (hstar : c ∉ "*".data)
    (hF : c ∉ "FROM ".data) (hcm : c ∉ ", ".data)
    (hJ : c ∉ " JOIN ".data) (hON : c ∉ " ON ".data)
    (hL : c ∉ "LIMIT %s".data) (hO : c ∉ "OFFSET %s".data)
    (hcols : ∀ s ∈ p.columns, c ∉ s.data) (htabs : ∀ s ∈ p.tables, c ∉ s.data)
    (hjt : ∀ j ∈ p.joins, c ∉ (pyUpper (j.jtype.getD "INNER")).data)
    (hjtab : ∀ j ∈ p.joins, c ∉ j.table.data)
    (hjon : ∀ j ∈ p.joins, c ∉ j.onExpr.data) :
    c ∉ (build_select_sql p).1.data := by
  apply mem_pyJoin _ _ _ hsep
  intro s hs
  simp only [buildSelectParts, buildWhereParts, hw, hh, hg, ho, List.isEmpty_nil,
    if_true, List.append_nil, List.nil_append] at hs
  rcases List.mem_append.mp hs with hs | hs
  · rcases List.mem_append.mp hs with hs | hs
    · rcases List.mem_cons.mp hs with rfl | hs
      · exact hS
      · rcases List.mem_cons.mp hs with rfl | hs
        · by_cases hce : p.columns.isEmpty
          · rw [if_pos hce]; exact hstar
          · rw [if_neg hce]; exact mem_pyJoin _ _ _ hcm hcols
        · rcases List.mem_cons.mp hs with rfl | hs
          · exact not_mem_strAppend hF (mem_pyJoin _ _ _ hcm htabs)
          · rcases List.mem_map.mp hs with ⟨j, hj, rfl⟩
            exact not_mem_strAppend
              (not_mem_strAppend
                (not_mem_strAppend
                  (not_mem_strAppend (hjt j hj) hJ) (hjtab j hj)) hON) (hjon j hj)
    · cases hli : p.limit with
      | none => rw [hli] at hs; cases hs
      | some v =>
        rw [hli] at hs
        rcases List.mem_cons.mp hs with rfl | hs
        · exact hL
        · cases hs
  · cases hof : p.offset with
    | none => rw [hof] at hs; cases hs
    | some v =>
      rw [hof] at hs
      rcases List.mem_cons.mp hs with rfl | hs
      · exact hO
      · cases hs

/-! ### Claim theorems -/

/-- C10: calling `alter_table` with an empty list of actions executes
zero statements against the database, still commits (the `.ok` outcome
is reached only through `conn.commit()`), and returns the success
summary reporting 0 applied changes. -/
theorem alterTable_empty_batch (pyHash : Option String → Int) (exec : String → Option String) :
    alterTable pyHash exec []
      = (.ok "Успешно выполнено 0 изменений.", [], []) := rfl

/-- C4: the example scenario — `tables=["t"]`, one condition
`x = 5`, `limit=10` — builds exactly the text
`SELECT * FROM t WHERE x = %s LIMIT %s` with the argument list
`[5, 10]` in that order (`%s` being psycopg2's placeholder token). -/
theorem build_select_sql_example_scenario :
    build_select_sql
        (⟨["t"], [], [], [⟨"x", some "=", (5 : Int)⟩], [], [], [], some 10, none⟩ :
          SelectParams Int)
      = ("SELECT * FROM t WHERE x = %s LIMIT %s", [5, 10]) := by
  decide

/-- C2 counterexample: for `tables=["t"]` the built statement text is
`SELECT * FROM t` — the table identifier appears verbatim, and the
text contains no double-quote character at all, so identifiers are not
syntactically quoted/escaped as the claim states (compare
`quoteIdent`, the quoting psycopg2 would produce, which the source
applies in `alter_table` but not in `build_select_sql`). -/
theorem build_select_sql_identifier_unquoted :
    build_select_sql (⟨["t"], [], [], [], [], [], [], none, none⟩ : SelectParams Int)
        = ("SELECT * FROM t", []) ∧
      '"' ∉ ("SELECT * FROM t").data ∧
      quoteIdent "t" = "\"t\"" := by
  refine ⟨by decide, by decide, by decide⟩

/-- C2 (amended): identifiers are interpolated verbatim (unquoted)
into the statement text, but every literal value is passed only
through the bound-argument list: the text of `build_select_sql` is
invariant under any replacement of the values, and the argument list
is exactly the WHERE values, then the HAVING values, then limit, then
offset; no value ever reaches the text. -/
theorem build_select_sql_values_only_bound {α β : Type} (p : SelectParams α) (f : α → β) :
    (build_select_sql (SelectParams.mapVals f p)).1 = (build_select_sql p).1 ∧
    (build_select_sql p).2
      = p.whereConds.map WhereCond.val ++ p.having.map HavingCond.val
        ++ (match p.limit with | some v => [v] | none => [])
        ++ (match p.offset with | some v => [v] | none => []) := by
  constructor
  · show pyJoin " " (buildSelectParts (SelectParams.mapVals f p)) = _
    rw [buildSelectParts_mapVals]
    rfl
  · rfl

/-- C3: the source normalises the WHERE operator and then inserts it
verbatim whatever it is — the membership test against the pattern-op
list has identical branches — so an operator outside the spec's
enumerated set (here `FOO`) is emitted as raw SQL text, contradicting
the claim.  The claim matches the spec's stated intent ("operators are
a fixed enumerated set ... to avoid injection via the operator slot"),
so the dead branch in the source is recorded as a code bug. -/
theorem build_select_sql_inserts_unlisted_operator :
    "FOO" ∉ specOperatorSet ∧
    (build_select_sql
        (⟨["t"], [], [], [⟨"x", some "FOO", (1 : Int)⟩], [], [], [], none, none⟩ :
          SelectParams Int)).1
      = "SELECT * FROM t WHERE x FOO %s" := by
  refine ⟨by decide, by decide⟩

/-- C9 counterexample: for an `add_check` action with no
`constraint_name`, the default name embeds `abs(hash(check_expr)) %
9999`, and Python's string hash is salted per process: two runs whose
hash functions differ on the expression render two different
statements (`t_check_0` vs `t_check_1`), so the derived name is not
deterministic across runs. -/
theorem add_check_default_name_hash_dependent :
    buildAlterCommand (fun _ => 0)
        ⟨.add_check, "t", none, none, none, some "x > 0", none, none, none, false⟩
      = .ok "ALTER TABLE \"t\" ADD CONSTRAINT \"t_check_0\" CHECK (x > 0)" ∧
    buildAlterCommand (fun _ => 1)
        ⟨.add_check, "t", none, none, none, some "x > 0", none, none, none, false⟩
      = .ok "ALTER TABLE \"t\" ADD CONSTRAINT \"t_check_1\" CHECK (x > 0)" ∧
    ("ALTER TABLE \"t\" ADD CONSTRAINT \"t_check_0\" CHECK (x > 0)" : String)
      ≠ "ALTER TABLE \"t\" ADD CONSTRAINT \"t_check_1\" CHECK (x > 0)" := by
  refine ⟨rfl, rfl, by decide⟩

/-- C9 (amended): for `add_unique` and `add_foreign_key` the default
constraint name (`table_column_uniq` / `table_column_fk`) is derived
from table and column only, so two builds of the same action agree in
any two runs (the rendered statement does not depend on the process's
hash function); only the `add_check` default name is hash-dependent. -/
theorem default_constraint_name_hash_independent
    (h1 h2 : Option String → Int) (a : AlterAction)
    (hk : a.kind = .add_unique ∨ a.kind = .add_foreign_key) :
    buildAlterCommand h1 a = buildAlterCommand h2 a := by
  rcases hk with hk | hk <;> simp [buildAlterCommand, hk]

/-- Witness for the amended C9 theorem at a concrete `add_unique`
action and two distinct hash functions. -/
theorem default_constraint_name_hash_independent_witness :
    buildAlterCommand (fun _ => 0)
        ⟨.add_unique, "t", some "c", none, none, none, none, none, none, false⟩
      = buildAlterCommand (fun _ => 7)
          ⟨.add_unique, "t", some "c", none, none, none, none, none, none, false⟩ :=
  default_constraint_name_hash_independent (fun _ => 0) (fun _ => 7) _ (Or.inl rfl)

/-- C1 counterexample: when a statement's execution raises a
low-level message that matches no key of the translation table (here
`boom`), `alter_table` still rolls back and raises a `DBError`, but
the raised message is the raw text alone — it embeds no
human-readable category (no key and no category text of the table
occurs in it), contradicting the claim that the message always embeds
both the category and the low-level message. -/
theorem alterTable_error_without_category :
    alterTable (fun _ => 0) (fun _ => some "boom")
        [⟨.set_not_null, "t", some "c", none, none, none, none, none, none, false⟩]
      = (.dbError "boom", ["ALTER TABLE \"t\" ALTER COLUMN \"c\" SET NOT NULL"], []) ∧
    pgErrorMapping.all (fun kv => !(containsSub "boom" kv.2)) = true ∧
    pgFindCategory "boom" = none := by
  refine ⟨rfl, by decide, by decide⟩

/-- C1 (amended): for every batch whose statements build successfully,
if every statement executes without error the transaction is committed
and the summary reporting the count of applied changes is returned,
with all statements' effects persisting; if some statement raises, the
whole transaction is rolled back (no statement's effect persists)
before a `DBError` carrying `_humanize_pg_error` of the low-level
message is raised — that message always embeds the low-level backend
message, and it embeds the human-readable category as well exactly
when the lowercased low-level message matches a key of the translation
table; otherwise it is the raw message unchanged. -/
theorem alterTable_commit_or_rollback (pyHash : Option String → Int)
    (exec : String → Option String) (actions : List AlterAction) (cmds : List String)
    (hb : buildAlterBatch pyHash actions = .ok cmds) :
    ((execUntilErr exec cmds).2 = none →
      alterTable pyHash exec actions
        = (.ok ("Успешно выполнено " ++ toString actions.length ++ " изменений."),
           cmds, cmds)) ∧
    (∀ e, (execUntilErr exec cmds).2 = some e →
      alterTable pyHash exec actions
          = (.dbError (humanizePgError e), (execUntilErr exec cmds).1, []) ∧
        containsSub (humanizePgError e) e = true ∧
        (∀ kv, pgFindCategory e = some kv →
          humanizePgError e = kv.2 ++ " Детали: " ++ e) ∧
        (pgFindCategory e = none → humanizePgError e = e)) := by
  constructor
  · intro h
    simp only [alterTable, hb]
    rw [h]
    rw [execUntilErr_none_fst exec cmds h,
      buildAlterBatch_ok_length pyHash actions cmds hb]
  · intro e he
    refine ⟨?_, ?_, ?_, ?_⟩
    · simp only [alterTable, hb]
      rw [he]
    · unfold humanizePgError
      cases hcat : pgFindCategory e with
      | some kv =>
        show containsSub (kv.2 ++ " Детали: " ++ e) e = true
        exact containsSub_append_self _ e
      | none => exact containsSub_self e
    · intro kv hkv
      unfold humanizePgError
      rw [hkv]
    · intro hnone
      unfold humanizePgError
      rw [hnone]

/-- Witness for the amended C1 theorem: a one-action batch whose
statement builds and executes successfully is committed with the
summary reporting one applied change. -/
theorem alterTable_commit_or_rollback_witness :
    alterTable (fun _ => 0) (fun _ => none)
        [⟨.set_not_null, "t", some "c", none, none, none, none, none, none, false⟩]
      = (.ok "Успешно выполнено 1 изменений.",
         ["ALTER TABLE \"t\" ALTER COLUMN \"c\" SET NOT NULL"],
         ["ALTER TABLE \"t\" ALTER COLUMN \"c\" SET NOT NULL"]) :=
  (alterTable_commit_or_rollback (fun _ => 0) (fun _ => none)
      [⟨.set_not_null, "t", some "c", none, none, none, none, none, none, false⟩]
      ["ALTER TABLE \"t\" ALTER COLUMN \"c\" SET NOT NULL"] rfl).1 rfl

/-- C8: for every `AlterAction` in a batch missing a field its kind
requires (`add_column` without `data_type`, `rename_column` without
`new_name`, `add_check` without `check_expr`, and so on —
`missingRequired` lists exactly the fields whose absence makes the
source builder raise), `alter_table` raises during statement building:
no statement is sent to the server and nothing persists; the builder
never substitutes a guessed value. -/
theorem alterTable_missing_field_builds_nothing (pyHash : Option String → Int)
    (exec : String → Option String) (pre post : List AlterAction) (a : AlterAction)
    (h : missingRequired a = true) :
    ∃ e, alterTable pyHash exec (pre ++ a :: post) = (.buildError e, [], []) := by
  obtain ⟨e, hb⟩ := buildAlterBatch_error_of_mem pyHash (pre ++ a :: post) a
      (List.mem_append_right pre (List.mem_cons_self a post))
      (buildAlterCommand_missing pyHash a h)
  exact ⟨e, by simp [alterTable, hb]⟩

/-- Witness for the C8 theorem: an `add_column` action with no
`data_type` makes `alter_table` fail at build time with no statement
sent and nothing persisted. -/
theorem alterTable_missing_field_builds_nothing_witness :
    missingRequired
        ⟨.add_column, "t", some "score", none, none, none, none, none, none, false⟩ = true ∧
    ∃ e, alterTable (fun _ => 0) (fun _ => none)
        ([] ++ (⟨.add_column, "t", some "score", none, none, none, none,
                  none, none, false⟩ : AlterAction) :: [])
      = (.buildError e, [], []) :=
  ⟨by decide,
   alterTable_missing_field_builds_nothing (fun _ => 0) (fun _ => none) [] [] _ (by decide)⟩

/-- C5 counterexample: a condition whose column text itself contains
the placeholder token (`a %s b`) makes the WHERE clause carry two
positional placeholders for a `where` list of length one — the column
is interpolated verbatim, so the claimed equality fails for such
inputs. -/
theorem build_select_sql_where_placeholder_mismatch :
    countPHs (pyJoin " " (buildWhereParts
        (⟨["t"], [], [], [⟨"a %s b", some "=", (0 : Int)⟩], [], [], [], none, none⟩ :
          SelectParams Int))) = 2 ∧
    (⟨["t"], [], [], [⟨"a %s b", some "=", (0 : Int)⟩], [], [], [], none, none⟩ :
        SelectParams Int).whereConds.length = 1 := by
  refine ⟨by decide, by decide⟩

/-- C5 (amended): provided no condition's column text itself contains
the `%s` placeholder token, the WHERE clause of `build_select_sql`
carries exactly N placeholders for a `where` list of length N (the
normalised operator can never contribute one, since upper-casing
removes every lowercase `s`), and — unconditionally in the source —
the first N entries of the argument list are the N condition values in
left-to-right input order. -/
theorem build_select_sql_where_placeholder_count {α : Type} (p : SelectParams α)
    (h : ∀ c ∈ p.whereConds, countPHs c.col = 0) :
    countPHs (pyJoin " " (buildWhereParts p)) = p.whereConds.length ∧
    (build_select_sql p).2.take p.whereConds.length = p.whereConds.map WhereCond.val := by
  constructor
  · unfold buildWhereParts
    by_cases he : p.whereConds.isEmpty
    · rw [if_pos he]
      rw [List.isEmpty_iff.mp he]
      rfl
    · rw [if_neg he]
      show countPHs ("WHERE " ++ pyJoin " AND " (p.whereConds.map whereItem)) = _
      rw [countPHs_append_noPercent "WHERE " _ (by decide), countPHs_joinAND p.whereConds h]
  · show (buildSelectArgs p).take _ = _
    unfold buildSelectArgs
    simp only [List.append_assoc]
    rw [show p.whereConds.length = (p.whereConds.map WhereCond.val).length from
      (List.length_map _ _).symm]
    exact List.take_left _ _

/-- Witness for the amended C5 theorem: two ordinary conditions give
two WHERE placeholders and the argument list starts with their two
values in order. -/
theorem build_select_sql_where_placeholder_count_witness :
    countPHs (pyJoin " " (buildWhereParts
        (⟨["t"], [], [], [⟨"x", some "=", (5 : Int)⟩, ⟨"y", some "<", (6 : Int)⟩],
          [], [], [], none, none⟩ : SelectParams Int))) = 2 ∧
    (build_select_sql
        (⟨["t"], [], [], [⟨"x", some "=", (5 : Int)⟩, ⟨"y", some "<", (6 : Int)⟩],
          [], [], [], none, none⟩ : SelectParams Int)).2.take 2 = [5, 6] :=
  build_select_sql_where_placeholder_count
    (⟨["t"], [], [], [⟨"x", some "=", (5 : Int)⟩, ⟨"y", some "<", (6 : Int)⟩],
      [], [], [], none, none⟩ : SelectParams Int) (by decide)

/-- C6 counterexample: with all four of `where`/`having`/`group_by`/
`order_by` empty, the statement text can still contain the keyword
`WHERE` — caller-supplied fragments are interpolated verbatim, here a
column expression holding a subquery — so the claim's "contains none
of the keywords" fails as stated (the builder itself emitted no WHERE
clause; the keyword came from the fragment). -/
theorem build_select_sql_keyword_from_fragment :
    containsSub (build_select_sql
        (⟨["t"], ["(SELECT x FROM u WHERE y)"], [], [], [], [], [], none, none⟩ :
          SelectParams Int)).1 "WHERE" = true := by
  decide

/-- C6 (amended): with empty `where`/`having`/`group_by`/`order_by`
lists the builder emits no WHERE/HAVING/GROUP BY/ORDER BY clause of
its own, so whenever the caller-supplied fragments (columns, tables,
join type/table/on texts) cannot contribute those keywords — e.g. they
are ordinary identifiers or lowercase expressions, formalised as
avoiding the four marker characters — the statement text contains none
of the four keywords. -/
theorem build_select_sql_empty_lists_no_clauses {α : Type} (p : SelectParams α)
    (hw : p.whereConds = []) (hh : p.having = []) (hg : p.group_by = []) (ho : p.order_by = [])
    (hcols : ∀ s ∈ p.columns, clauseMarkFree s)
    (htabs : ∀ s ∈ p.tables, clauseMarkFree s)
    (hjt : ∀ j ∈ p.joins, clauseMarkFree (pyUpper (j.jtype.getD "INNER")))
    (hjtab : ∀ j ∈ p.joins, clauseMarkFree j.table)
    (hjon : ∀ j ∈ p.joins, clauseMarkFree j.onExpr) :
    containsSub (build_select_sql p).1 "WHERE" = false ∧
    containsSub (build_select_sql p).1 "HAVING" = false ∧
    containsSub (build_select_sql p).1 "GROUP BY" = false ∧
    containsSub (build_select_sql p).1 "ORDER BY" = false := by
  have habs : ∀ c ∈ clauseMarkChars, c ∉ (build_select_sql p).1.data := by
    intro c hcmem
    fin_cases hcmem <;>
      exact chr_not_mem_selectText p _ hw hh hg ho (by decide) (by decide) (by decide)
        (by decide) (by decide) (by decide) (by decide) (by decide) (by decide)
        (fun s hs => hcols s hs _ (by decide)) (fun s hs => htabs s hs _ (by decide))
        (fun j hj => hjt j hj _ (by decide)) (fun j hj => hjtab j hj _ (by decide))
        (fun j hj => hjon j hj _ (by decide))
  refine ⟨containsSub_false_of_missing _ _ 'W' (by decide) (habs 'W' (by decide)),
    containsSub_false_of_missing _ _ 'V' (by decide) (habs 'V' (by decide)),
    containsSub_false_of_missing _ _ 'G' (by decide) (habs 'G' (by decide)),
    containsSub_false_of_missing _ _ 'D' (by decide) (habs 'D' (by decide))⟩

/-- Witness for the amended C6 theorem: a query over plain lowercase
identifiers with a join and a limit contains none of the four clause
keywords. -/
theorem build_select_sql_empty_lists_no_clauses_witness :
    containsSub (build_select_sql
        (⟨["t"], ["a", "b"], [⟨some "LEFT", "u", "u.x = t.x"⟩], [], [], [], [],
          some 1, none⟩ : SelectParams Int)).1 "WHERE" = false ∧
    containsSub (build_select_sql
        (⟨["t"], ["a", "b"], [⟨some "LEFT", "u", "u.x = t.x"⟩], [], [], [], [],
          some 1, none⟩ : SelectParams Int)).1 "HAVING" = false ∧
    containsSub (build_select_sql
        (⟨["t"], ["a", "b"], [⟨some "LEFT", "u", "u.x = t.x"⟩], [], [], [], [],
          some 1, none⟩ : SelectParams Int)).1 "GROUP BY" = false ∧
    containsSub (build_select_sql
        (⟨["t"], ["a", "b"], [⟨some "LEFT", "u", "u.x = t.x"⟩], [], [], [], [],
          some 1, none⟩ : SelectParams Int)).1 "ORDER BY" = false :=
  build_select_sql_empty_lists_no_clauses
    (⟨["t"], ["a", "b"], [⟨some "LEFT", "u", "u.x = t.x"⟩], [], [], [], [],
      some 1, none⟩ : SelectParams Int)
    rfl rfl rfl rfl (by decide) (by decide) (by decide) (by decide) (by decide)

/-- C7: calling `apply_string_func` with `SUBSTRING` and a wrong
number of extra arguments fails locally and performs zero database
calls: the built statement carries exactly two placeholders (for any
table/column whose quoted form contains no placeholder token), so the
client-side parameter interpolation raises before anything is sent to
the server — the raised `DBError` wraps the local argument-count
failure and the list of statements that reached the backend is empty. -/
theorem applyStringFunc_substring_wrong_arity (exec : String → Option String)
    (table column : String) (args : List String)
    (hc : countPHs (quoteIdent column) = 0) (ht : countPHs (quoteIdent table) = 0)
    (ha : args.length ≠ 2) :
    applyStringFunc exec table column "SUBSTRING" args
      = (.error "IndexError: tuple index out of range", []) := by
  have hq : countPHs ("SELECT " ++ quoteIdent column ++ ", "
      ++ (("SUBSTRING(" ++ quoteIdent column ++ " FROM %s FOR %s)") ++ " AS transformed")
      ++ " FROM " ++ quoteIdent table) = 2 := by
    simp only [String.append_assoc]
    rw [countPHs_append_noPercent "SELECT " _ (by decide)]
    rw [countPHs_append_headNeS (quoteIdent column) _
      (by rw [data_head?_append ", " _ ',' rfl]; decide), hc]
    rw [countPHs_append_noPercent ", " _ (by decide)]
    rw [countPHs_append_noPercent "SUBSTRING(" _ (by decide)]
    rw [countPHs_append_headNeS (quoteIdent column) _
      (by rw [data_head?_append " FROM %s FOR %s)" _ ' ' rfl]; decide), hc]
    rw [countPHs_append_headNeS " FROM %s FOR %s)" _
      (by rw [data_head?_append " AS transformed" _ ' ' rfl]; decide)]
    rw [countPHs_append_noPercent " AS transformed" _ (by decide)]
    rw [countPHs_append_noPercent " FROM " _ (by decide), ht]
    decide
  have hne : countPHs ("SELECT " ++ quoteIdent column ++ ", "
      ++ (("SUBSTRING(" ++ quoteIdent column ++ " FROM %s FOR %s)") ++ " AS transformed")
      ++ " FROM " ++ quoteIdent table) ≠ args.length := by
    rw [hq]
    omega
  have hcur : cursorExecute exec ("SELECT " ++ quoteIdent column ++ ", "
      ++ (("SUBSTRING(" ++ quoteIdent column ++ " FROM %s FOR %s)") ++ " AS transformed")
      ++ " FROM " ++ quoteIdent table) args
      = ([], some "IndexError: tuple index out of range") := by
    unfold cursorExecute
    rw [if_pos hne]
  have hf : pyStrip (pyUpper "SUBSTRING") = "SUBSTRING" := by decide
  have hhum : humanizePgError "IndexError: tuple index out of range"
      = "IndexError: tuple index out of range" := by decide
  have hsf : stringFuncExpr (quoteIdent column) "SUBSTRING"
      = some ("SUBSTRING(" ++ quoteIdent column ++ " FROM %s FOR %s)") := rfl
  unfold applyStringFunc
  simp only [hf, hsf, hcur, hhum]

/-- Witness for the C7 theorem: `SUBSTRING` with the single extra
argument `["2"]` on a concrete table and column fails locally with the
argument-count error and sends nothing to the server. -/
theorem applyStringFunc_substring_wrong_arity_witness :
    applyStringFunc (fun _ => none) "t" "c" "SUBSTRING" ["2"]
      = (.error "IndexError: tuple index out of range", []) :=
  applyStringFunc_substring_wrong_arity (fun _ => none) "t" "c" ["2"]
    (by decide) (by decide) (by decide)
